import Mathlib

/-!
Shallow embedding of `src/lib.rs` of the rust-chunks repository (a voxel
world split into 16-sized chunks, with bounded-region windows and a
multi-source Dijkstra-style potential-field solver), together with
theorems settling the claims of the specification against it.

Machine integers: the source works on `u32`/`usize` in release mode, where
arithmetic wraps silently.  Components are modelled as `Nat` and every
operation that the source performs on `u32` is reduced modulo `2^32`
explicitly.  Fallible operations (Rust panics: out-of-range `Vec` indexing,
`unwrap` on `None`, `panic!` calls, division by zero) are modelled with
`Option`/`Except`.
-/

namespace RustChunks

/-- Modulus of `u32` arithmetic. -/
def U32MOD : Nat := 4294967296

/-- `u32::max_value()`, the sentinel used for unreachable cells. -/
def U32MAX : Nat := 4294967295

/-- 256 bytes of data, to be used for any purpose (`DataSegment`). -/
structure DataSegment where
  data : List Nat
deriving DecidableEq

/-- A point in 3D space with `u32` components (`Point3D`). -/
structure Point3D where
  x : Nat
  y : Nat
  z : Nat
deriving DecidableEq

/-- Component-wise addition, wrapping modulo `2^32` (release-mode `impl Add for Point3D`). -/
def Point3D.add (a b : Point3D) : Point3D :=
  ⟨(a.x + b.x) % U32MOD, (a.y + b.y) % U32MOD, (a.z + b.z) % U32MOD⟩

/-- Component-wise subtraction, wrapping modulo `2^32` (release-mode `impl Sub for Point3D`);
for components below `2^32`, `(a + 2^32 - b) % 2^32` is exactly `u32` wrapping subtraction. -/
def Point3D.sub (a b : Point3D) : Point3D :=
  ⟨(a.x + U32MOD - b.x) % U32MOD, (a.y + U32MOD - b.y) % U32MOD, (a.z + U32MOD - b.z) % U32MOD⟩

/-- A particular section of a dimension (`struct Volume<T>`): a dense cuboid
of voxels between `start_location` (inclusive) and `end_location` (exclusive). -/
structure Volume (T : Type) where
  start_location : Point3D
  end_location : Point3D
  x_size : Nat
  y_size : Nat
  z_size : Nat
  voxels : List T
deriving DecidableEq

/-- `Volume::new`: sizes are `end - start` per component (`u32` wrapping
subtraction in release mode), the voxel vector holds `x_size*y_size*z_size`
copies of `value` (the product is computed in `u32`, hence reduced mod `2^32`). -/
def Volume.new (start_location end_location : Point3D) (value : T) : Volume T :=
  let xs := (end_location.x + U32MOD - start_location.x) % U32MOD
  let ys := (end_location.y + U32MOD - start_location.y) % U32MOD
  let zs := (end_location.z + U32MOD - start_location.z) % U32MOD
  { start_location := start_location
    end_location := end_location
    x_size := xs
    y_size := ys
    z_size := zs
    voxels := List.replicate ((xs * ys * zs) % U32MOD) value }

/-- `Volume::get_index`: `(location.z * x_size * y_size + location.y * x_size + location.x) as usize`,
computed in `u32` (a single final reduction mod `2^32` agrees with Rust's
per-operation wrapping since `%` commutes with sums and products). -/
def Volume.get_index (vol : Volume T) (location : Point3D) : Nat :=
  (location.z * vol.x_size * vol.y_size + location.y * vol.x_size + location.x) % U32MOD

/-- `Volume::get_location`: `z = i / (x_size*y_size)`, `y = i % (x_size*y_size)`,
`x = i % y_size`, all in `u32` (the `index as u32` cast truncates mod `2^32`);
Rust `u32` division/remainder by zero panics, modelled as `none`. -/
def Volume.get_location (vol : Volume T) (index : Nat) : Option Point3D :=
  let i := index % U32MOD
  let xy := (vol.x_size * vol.y_size) % U32MOD
  if xy = 0 ∨ vol.y_size = 0 then none
  else some ⟨i % vol.y_size, i % xy, i / xy⟩

/-- `Volume::within_bounds`: true when the flat index is below the length of
the voxel vector (the source does not compare components against
`start_location`/`end_location`). -/
def Volume.within_bounds (vol : Volume T) (location : Point3D) : Bool :=
  vol.get_index location < vol.voxels.length

/-- `Volume::get`: indexing into the voxel vector; Rust panics when the flat
index is out of range, modelled as `none`. -/
def Volume.get (vol : Volume T) (location : Point3D) : Option T :=
  vol.voxels.get? (vol.get_index location)

/-- `Volume::set`: replaces the voxel at the flat index; Rust panics when the
index is out of range, modelled as `none`. -/
def Volume.set (vol : Volume T) (location : Point3D) (value : T) : Option (Volume T) :=
  if vol.get_index location < vol.voxels.length then
    some { vol with voxels := vol.voxels.set (vol.get_index location) value }
  else
    none

/-- The specification's bounds predicate, written from the spec's words for
comparison with the source's `within_bounds`: every component of `location`
is at least the corresponding component of `start_location` and strictly
below the corresponding component of `end_location`. -/
def inBoundsSpec (vol : Volume T) (location : Point3D) : Prop :=
  (vol.start_location.x ≤ location.x ∧ location.x < vol.end_location.x) ∧
  (vol.start_location.y ≤ location.y ∧ location.y < vol.end_location.y) ∧
  (vol.start_location.z ≤ location.z ∧ location.z < vol.end_location.z)

instance (vol : Volume T) (location : Point3D) : Decidable (inBoundsSpec vol location) := by
  unfold inBoundsSpec; infer_instance

/-- A voxel material type (`struct VoxelType`). -/
structure VoxelType where
  id : Nat
  name : String
  solid : Bool
deriving DecidableEq

/-- One voxel of the world (`struct Voxel`). -/
structure Voxel where
  id : Nat
  extra_data : Option DataSegment
deriving DecidableEq

/-- `Voxel::get_type`: the four defined materials; any other id hits
`panic!("material id undefined")`, modelled as `none`. -/
def Voxel.get_type (v : Voxel) : Option VoxelType :=
  if v.id = 0 then some ⟨0, "unknown", true⟩
  else if v.id = 1 then some ⟨1, "air", false⟩
  else if v.id = 2 then some ⟨2, "water", false⟩
  else if v.id = 3 then some ⟨3, "stone", true⟩
  else none

/-- `is_traversable`: the location underneath is built with `location.z - 1`
(wrapping `u32` subtraction on the z component only); the four conditions are
evaluated in the source's short-circuit order, and a `get_type` panic on an
inspected voxel propagates as `none`. -/
def is_traversable (map : Volume Voxel) (location : Point3D) : Option Bool :=
  let location_underneath : Point3D := ⟨location.x, location.y, (location.z + U32MOD - 1) % U32MOD⟩
  if map.within_bounds location && map.within_bounds location_underneath then
    match map.get location with
    | none => none
    | some v =>
      match v.get_type with
      | none => none
      | some t =>
        if t.solid then some false
        else
          match map.get location_underneath with
          | none => none
          | some v2 =>
            match v2.get_type with
            | none => none
            | some t2 => some t2.solid
  else
    some false

/-- A frontier candidate of the solver (`struct Node`): a location together
with its accumulated cost. -/
structure Node where
  location : Point3D
  cost : Nat
deriving DecidableEq

/-- Tie-break key of `impl Ord for Node`.  The source computes
`DefaultHasher` (SipHash-1-3 with fixed zero keys) over the node's fields;
only the order this key induces on equal-cost nodes matters, so the solver is
parametrised by the key function and concrete runs instantiate it with an
explicit injective encoding of the fields. -/
def encodeNode (n : Node) : Nat :=
  ((n.location.x * U32MOD + n.location.y) * U32MOD + n.location.z) * U32MOD + n.cost

/-- Pop priority of `impl Ord for Node` as used by `BinaryHeap::pop` (which
removes the greatest element): cost is compared reversed, so the greatest
element is the one of least cost, and among equal costs the one of greatest
tie-break key. -/
def Node.popsBefore (hash : Node → Nat) (a b : Node) : Bool :=
  a.cost < b.cost || (a.cost = b.cost && hash b < hash a)

/-- The element `BinaryHeap::pop` removes: the best node under `Node.popsBefore`. -/
def heapMax (hash : Node → Nat) : List Node → Option Node
  | [] => none
  | n :: rest =>
    match heapMax hash rest with
    | none => some n
    | some m => if Node.popsBefore hash m n then some m else some n

/-- Removes the first occurrence of a node from the frontier list. -/
def removeNode (n : Node) : List Node → List Node
  | [] => []
  | m :: rest => if m = n then rest else m :: removeNode n rest

/-- One `BinaryHeap::pop`: returns the best node and the remaining frontier. -/
def heapPop (hash : Node → Nat) (frontier : List Node) : Option (Node × List Node) :=
  match heapMax hash frontier with
  | none => none
  | some m => some (m, removeNode m frontier)

/-- The `visited.iter().find(|x| &x.location == location).is_some()` test:
whether some visited node has the given location (at any cost). -/
def hasLocation (visited : List Node) (location : Point3D) : Bool :=
  visited.any (fun n => n.location = location)

/-- `HashSet::insert` on `visited`, keeping insertion order: a node equal in
all fields to a present one is not re-inserted. -/
def insertNode (visited : List Node) (n : Node) : List Node :=
  if visited.contains n then visited else visited ++ [n]

/-- The six axis-aligned neighbor locations, in the source's order, using the
wrapping component-wise `Point3D` subtraction and addition. -/
def neighborLocations (location : Point3D) : List Point3D :=
  [ location.sub ⟨1, 0, 0⟩
  , location.add ⟨1, 0, 0⟩
  , location.sub ⟨0, 1, 0⟩
  , location.add ⟨0, 1, 0⟩
  , location.sub ⟨0, 0, 1⟩
  , location.add ⟨0, 0, 1⟩ ]

/-- The neighbor loop body of `get_djikstra_map`: each traversable neighbor
whose location is not yet visited is pushed with cost `current + 1` (wrapping
`u32` addition); a panic inside `is_traversable` propagates. -/
def pushNeighbors (map : Volume Voxel) (cur : Node) (visited : List Node) :
    List Point3D → List Node → Except String (List Node)
  | [], frontier => Except.ok frontier
  | loc :: rest, frontier =>
    match is_traversable map loc with
    | none => Except.error "panic"
    | some t =>
      if t && !hasLocation visited loc then
        pushNeighbors map cur visited rest (frontier ++ [⟨loc, (cur.cost + 1) % U32MOD⟩])
      else
        pushNeighbors map cur visited rest frontier

/-- The `while frontier.len() > 0` loop of `get_djikstra_map`, producing the
final `visited` set as an insertion-ordered duplicate-free list.  The source
loop has no intrinsic bound, so the model carries fuel; exhausting it yields
`Except.error "fuel"`, distinct from the panic error. -/
def djikstraSearch (map : Volume Voxel) (hash : Node → Nat) :
    Nat → List Node → List Node → Except String (List Node)
  | 0, _, _ => Except.error "fuel"
  | fuel + 1, frontier, visited =>
    match heapPop hash frontier with
    | none => Except.ok visited
    | some (cur, rest) =>
      let visitedB := insertNode visited cur
      match pushNeighbors map cur visitedB (neighborLocations cur.location) rest with
      | Except.error e => Except.error e
      | Except.ok frontierB => djikstraSearch map hash fuel frontierB visitedB

/-- The final loop of `get_djikstra_map`: write every visited node's cost into
the potential map in the given iteration order; `Volume::set` panics (here
`none`) when a node's location indexes outside the voxel vector. -/
def writeVisited : List Node → Volume Nat → Option (Volume Nat)
  | [], vol => some vol
  | n :: rest, vol =>
    match vol.set n.location n.cost with
    | none => none
    | some volB => writeVisited rest volB

/-- `get_djikstra_map`: seeds the frontier with the weight list, runs the
search, then writes the visited nodes over a fresh all-`u32::MAX` volume of
the same extent.  `hash` stands for the `DefaultHasher` tie-break key and
`fuel` bounds the unbounded source loop; the real `HashSet` iteration order
over `visited` is randomly seeded in Rust, and the model iterates in
insertion order, one of its realizable orders. -/
def get_djikstra_map (map : Volume Voxel) (weights : List (Point3D × Nat))
    (hash : Node → Nat) (fuel : Nat) : Except String (Volume Nat) :=
  let frontier : List Node := weights.map (fun w => ⟨w.1, w.2⟩)
  match djikstraSearch map hash fuel frontier [] with
  | Except.error e => Except.error e
  | Except.ok visited =>
    match writeVisited visited (Volume.new map.start_location map.end_location U32MAX) with
    | none => Except.error "panic"
    | some potential_map => Except.ok potential_map

/-- A collection of voxels loaded and unloaded together (`struct Chunk<T>`). -/
structure Chunk (T : Type) where
  voxels : List T
  extra_data : Option DataSegment
deriving DecidableEq

/-- Many chunks forming a world (`struct Dimension<T>`); the loaded-chunk
`HashMap` is modelled as an association list where the most recent insertion
for a key shadows older entries. -/
structure Dimension (T : Type) where
  loaded_chunks : List (Point3D × Chunk T)
  all_chunk_locations : List Point3D
  disk_cache : Option String

/-- Lookup of `loaded_chunks.get(&location)`. -/
def Dimension.lookup_loaded (d : Dimension T) (location : Point3D) : Option (Chunk T) :=
  (d.loaded_chunks.find? (fun p => p.1 = location)).map (fun p => p.2)

/-- `Dimension::chunk_loaded`. -/
def Dimension.chunk_loaded (d : Dimension T) (location : Point3D) : Bool :=
  (d.lookup_loaded location).isSome

/-- `Dimension::chunk_defined`. -/
def Dimension.chunk_defined (d : Dimension T) (location : Point3D) : Bool :=
  d.all_chunk_locations.any (fun l => l = location)

/-- Modelled from the spec: `Dimension::load_chunk` is a TODO stub in the
source ("Loads chunk from disk"), and §6 places persistence with an external
collaborator implementing `load(chunk_coord) -> FixedChunk<V>`.  The
collaborator is passed in as `loadFn` and the loaded chunk is stored under
its coordinate. -/
def Dimension.load_chunk (d : Dimension T) (loadFn : Point3D → Chunk T)
    (location : Point3D) : Dimension T :=
  { d with loaded_chunks := (location, loadFn location) :: d.loaded_chunks }

/-- `Dimension::get_chunk`, with the load collaborator modelled from the spec
(see `Dimension.load_chunk`): panic `"chunk undefined"` outside the defined
set; otherwise load if cold, then the source's final
`loaded_chunks.get(&location).unwrap()`.  The result carries the updated
dimension and the number of load-collaborator invocations. -/
def Dimension.get_chunk (d : Dimension T) (loadFn : Point3D → Chunk T)
    (location : Point3D) : Except String (Chunk T × Dimension T × Nat) :=
  if !d.chunk_defined location then
    Except.error "chunk undefined"
  else
    let step : Dimension T × Nat :=
      if d.chunk_loaded location then (d, 0) else (d.load_chunk loadFn location, 1)
    match step.1.lookup_loaded location with
    | some c => Except.ok (c, step.1, step.2)
    | none => Except.error "unwrap on None"

/-- `Dimension::get_chunk_location`: component-wise division by the chunk
edge sizes (all 16). -/
def Dimension.get_chunk_location (location : Point3D) : Point3D :=
  ⟨location.x / 16, location.y / 16, location.z / 16⟩

/-- `Dimension::get_voxel_location`: component-wise remainder by the chunk
edge sizes (all 16). -/
def Dimension.get_voxel_location (location : Point3D) : Point3D :=
  ⟨location.x % 16, location.y % 16, location.z % 16⟩

/-- A solid stone voxel (material id 3). -/
def stone : Voxel := ⟨3, none⟩

/-- A non-solid air voxel (material id 1). -/
def air : Voxel := ⟨1, none⟩

/-- A 4×1×2 corridor: solid stone floor at z = 0, open air at z = 1, so the
four cells (0..3, 0, 1) are traversable. -/
def corridor : Volume Voxel :=
  ⟨⟨0, 0, 0⟩, ⟨4, 1, 2⟩, 4, 1, 2, [stone, stone, stone, stone, air, air, air, air]⟩

/-- Two zero-cost seeds at the two ends of the corridor's walkable level. -/
def corridorSeeds : List (Point3D × Nat) := [(⟨0, 0, 1⟩, 0), (⟨3, 0, 1⟩, 0)]

/-- The visited list the corridor run produces, in insertion order: the cell
(1,0,1) is settled twice, at cost 1 and again at the stale cost 2. -/
def visitedRun : List Node :=
  [⟨⟨3, 0, 1⟩, 0⟩, ⟨⟨0, 0, 1⟩, 0⟩, ⟨⟨2, 0, 1⟩, 1⟩, ⟨⟨1, 0, 1⟩, 1⟩, ⟨⟨1, 0, 1⟩, 2⟩]

/-- The same visited collection with its last two nodes exchanged: another
linearization of the same `HashSet` contents. -/
def visitedSwapped : List Node :=
  [⟨⟨3, 0, 1⟩, 0⟩, ⟨⟨0, 0, 1⟩, 0⟩, ⟨⟨2, 0, 1⟩, 1⟩, ⟨⟨1, 0, 1⟩, 2⟩, ⟨⟨1, 0, 1⟩, 1⟩]

/-- A single-cell 1×1×1 region holding one stone voxel. -/
def unit1 : Volume Voxel := ⟨⟨0, 0, 0⟩, ⟨1, 1, 1⟩, 1, 1, 1, [stone]⟩

/-- A 2×1×2 region whose cell (1,0,1) holds a voxel of undefined material
id 7, standing on stone, next to an air cell over stone at (0,0,1). -/
def badColumn : Volume Voxel := ⟨⟨0, 0, 0⟩, ⟨2, 1, 2⟩, 2, 1, 2, [stone, stone, air, ⟨7, none⟩]⟩

/-- A 2×2×2 volume of numbers with origin start. -/
def cube2 : Volume Nat := Volume.new ⟨0, 0, 0⟩ ⟨2, 2, 2⟩ 0

/-- A 2×2×2 voxel volume: all stone except an air cell at flat index 6. -/
def cube2v : Volume Voxel :=
  ⟨⟨0, 0, 0⟩, ⟨2, 2, 2⟩, 2, 2, 2, [stone, stone, stone, stone, stone, stone, air, stone]⟩

/-- A 2×3×1 volume of numbers with origin start. -/
def vol231 : Volume Nat := Volume.new ⟨0, 0, 0⟩ ⟨2, 3, 1⟩ 0

/-- A 1×1×1 volume whose start is the non-origin coordinate (1,0,0). -/
def shifted : Volume Nat := Volume.new ⟨1, 0, 0⟩ ⟨2, 1, 1⟩ 0

/-- Any voxel with a material id outside 0..3 hits
`panic!("material id undefined")` in `Voxel::get_type`. -/
theorem Voxel.get_type_undefined (v : Voxel) (h : 4 ≤ v.id) : v.get_type = none := by
  have h0 : ¬ v.id = 0 := by omega
  have h1 : ¬ v.id = 1 := by omega
  have h2 : ¬ v.id = 2 := by omega
  have h3 : ¬ v.id = 3 := by omega
  simp [Voxel.get_type, h0, h1, h2, h3]

/-- C1: the claim says `get_djikstra_map` assigns every reachable cell its
minimum accumulated cost.  On the corridor with zero-cost seeds at both
ends, the cell (1,0,1) is a traversable neighbor of the cost-0 seed
(0,0,1), so its minimum cost is 1; the search nevertheless settles it twice
(costs 1 and 2: the stale frontier entry pushed by (2,0,1) is not skipped
when popped), and the final write loop leaves the stale cost 2 in the field
(flat index 5 of the output). -/
theorem C1_stale_frontier_overwrite :
    djikstraSearch corridor encodeNode 100
        (corridorSeeds.map (fun w => ⟨w.1, w.2⟩)) [] = Except.ok visitedRun
    ∧ get_djikstra_map corridor corridorSeeds encodeNode 100 =
        Except.ok ⟨⟨0, 0, 0⟩, ⟨4, 1, 2⟩, 4, 1, 2,
          [U32MAX, U32MAX, U32MAX, U32MAX, 0, 2, 1, 0]⟩
    ∧ (⟨1, 0, 1⟩ : Point3D) ∈ neighborLocations ⟨0, 0, 1⟩
    ∧ is_traversable corridor ⟨1, 0, 1⟩ = some true :=
  ⟨rfl, rfl, by decide, rfl⟩

/-- C2: the claim says `get_index (get_location i) = i` for every in-range
flat index.  On a 2×3×1 volume and index 3, `get_location` returns
(x = 3 % y_size = 0, y = 3 % (x_size·y_size) = 3, z = 0) and `get_index` of
that location is 6, not 3. -/
theorem C2_location_roundtrip_fails :
    3 < vol231.voxels.length
    ∧ vol231.get_location 3 = some ⟨0, 3, 0⟩
    ∧ vol231.get_index ⟨0, 3, 0⟩ = 6 := by
  decide

/-- C3: the claim says two runs on identical input give identical fields.
The corridor run's `visited` set holds the cell (1,0,1) at costs 1 and 2;
the final loop iterates that `HashSet` in a per-process random order, and
two of its linearizations (differing only in the order of those two nodes)
produce fields that differ at that cell. -/
theorem C3_final_write_order_dependent :
    djikstraSearch corridor encodeNode 100
        (corridorSeeds.map (fun w => ⟨w.1, w.2⟩)) [] = Except.ok visitedRun
    ∧ visitedRun.Perm visitedSwapped
    ∧ writeVisited visitedRun
        (Volume.new corridor.start_location corridor.end_location U32MAX) ≠
      writeVisited visitedSwapped
        (Volume.new corridor.start_location corridor.end_location U32MAX) := by
  refine ⟨rfl, ?_, by decide⟩
  unfold visitedRun visitedSwapped
  exact List.Perm.append_left ([⟨⟨3, 0, 1⟩, 0⟩, ⟨⟨0, 0, 1⟩, 0⟩, ⟨⟨2, 0, 1⟩, 1⟩] : List Node)
    (List.Perm.swap (⟨⟨1, 0, 1⟩, 2⟩ : Node) (⟨⟨1, 0, 1⟩, 1⟩ : Node) [])

/-- C4: the claim says a `set` then `get` at any location inside
`[start, end)` succeeds with a flat index inside the voxel vector.  For the
1×1×1 volume starting at (1,0,0), the in-bounds location (1,0,0) gets flat
index 1 (the index ignores `start_location`), which is outside the
single-element vector, so `set` faults. -/
theorem C4_nonzero_start_faults :
    inBoundsSpec shifted ⟨1, 0, 0⟩
    ∧ shifted.voxels.length = 1
    ∧ shifted.get_index ⟨1, 0, 0⟩ = 1
    ∧ shifted.set ⟨1, 0, 0⟩ 5 = none := by
  decide

/-- C5: the claim says `within_bounds` holds exactly on component-wise
membership in `[start, end)`.  In the 2×2×2 volume the location (2,0,0) has
x outside `[0, 2)` yet `within_bounds` accepts it, because the source only
compares the flat index 2 against the vector length 8. -/
theorem C5_within_bounds_not_componentwise :
    cube2.within_bounds ⟨2, 0, 0⟩ = true ∧ ¬ inBoundsSpec cube2 ⟨2, 0, 0⟩ := by
  decide

/-- C6: the claim says `is_traversable` is false at every z = 0 location and
that the wrapped z − 1 coordinate never appears in bounds.  At (6,0,0) in
the 2×2×2 volume, the wrapped underneath (6,0,2³²−1) gets flat index
((2³²−1)·4 + 6) mod 2³² = 2 < 8 and so passes `within_bounds`; with air at
index 6 and stone at index 2 the function returns true at a z = 0 location
that is itself outside the component-wise bounds. -/
theorem C6_traversable_at_z0_via_wrap :
    (⟨6, 0, 0⟩ : Point3D).z = 0
    ∧ cube2v.within_bounds ⟨6, 0, U32MOD - 1⟩ = true
    ∧ is_traversable cube2v ⟨6, 0, 0⟩ = some true
    ∧ ¬ inBoundsSpec cube2v ⟨6, 0, 0⟩ := by
  decide

/-- C7: the claim says any seed outside the region's bounds yields an
all-sentinel field without error.  On the 1×1×1 region, the out-of-bounds
seed (0,0,5) is popped and written by the final loop at flat index 5 of a
1-element vector, a Rust index-out-of-bounds panic; only the empty seed
list yields the all-sentinel field. -/
theorem C7_out_of_bounds_seed_panics :
    ¬ inBoundsSpec unit1 ⟨0, 0, 5⟩
    ∧ get_djikstra_map unit1 [(⟨0, 0, 5⟩, 0)] encodeNode 100 = Except.error "panic"
    ∧ get_djikstra_map unit1 [] encodeNode 100 =
        Except.ok (Volume.new unit1.start_location unit1.end_location U32MAX) :=
  ⟨by decide, rfl, rfl⟩

/-- C8: `get_chunk` on an undefined coordinate fails with the
"chunk undefined" error; on a defined but unloaded coordinate it invokes
the (spec-modelled) load collaborator exactly once, returns the chunk that
collaborator materialized, and afterwards `chunk_loaded` reports true. -/
theorem C8_get_chunk_spec {T : Type} (d : Dimension T) (loadFn : Point3D → Chunk T)
    (location : Point3D) :
    (d.chunk_defined location = false →
      d.get_chunk loadFn location = Except.error "chunk undefined")
    ∧ (d.chunk_defined location = true → d.chunk_loaded location = false →
      d.get_chunk loadFn location =
          Except.ok (loadFn location, d.load_chunk loadFn location, 1)
        ∧ (d.load_chunk loadFn location).chunk_loaded location = true) := by
  constructor
  · intro h
    simp [Dimension.get_chunk, h]
  · intro h1 h2
    constructor
    · simp [Dimension.get_chunk, h1, h2, Dimension.load_chunk, Dimension.lookup_loaded,
        List.find?]
    · simp [Dimension.chunk_loaded, Dimension.lookup_loaded, Dimension.load_chunk,
        List.find?]

/-- An empty dimension of numeric chunks in which only (0,0,0) is defined. -/
def dim0 : Dimension Nat := ⟨[], [⟨0, 0, 0⟩], none⟩

/-- A load collaborator returning a fixed empty chunk. -/
def loadFn0 : Point3D → Chunk Nat := fun _ => ⟨[], none⟩

/-- Witness for C8 at a concrete dimension: (0,0,0) is defined but not
loaded, and `get_chunk` loads it once and returns it. -/
theorem C8_get_chunk_spec_witness :
    (dim0.chunk_defined ⟨0, 0, 0⟩ = true ∧ dim0.chunk_loaded ⟨0, 0, 0⟩ = false)
    ∧ (dim0.get_chunk loadFn0 ⟨0, 0, 0⟩ =
          Except.ok (loadFn0 ⟨0, 0, 0⟩, dim0.load_chunk loadFn0 ⟨0, 0, 0⟩, 1)
        ∧ (dim0.load_chunk loadFn0 ⟨0, 0, 0⟩).chunk_loaded ⟨0, 0, 0⟩ = true) :=
  ⟨⟨rfl, rfl⟩, (C8_get_chunk_spec dim0 loadFn0 ⟨0, 0, 0⟩).2 rfl rfl⟩

/-- C9: chunk-and-voxel addressing round-trip: for every global coordinate,
the chunk location scaled by 16 plus the voxel location reconstructs the
coordinate component-wise, and every voxel-location component lies in
[0, 16). -/
theorem C9_addressing_roundtrip (g : Point3D) :
    (Dimension.get_chunk_location g).x * 16 + (Dimension.get_voxel_location g).x = g.x
    ∧ (Dimension.get_chunk_location g).y * 16 + (Dimension.get_voxel_location g).y = g.y
    ∧ (Dimension.get_chunk_location g).z * 16 + (Dimension.get_voxel_location g).z = g.z
    ∧ (Dimension.get_voxel_location g).x < 16
    ∧ (Dimension.get_voxel_location g).y < 16
    ∧ (Dimension.get_voxel_location g).z < 16 := by
  dsimp only [Dimension.get_chunk_location, Dimension.get_voxel_location]
  refine ⟨?_, ?_, ?_, ?_, ?_, ?_⟩ <;> omega

/-- C10: a voxel with a material id outside 0..3 makes `Voxel::get_type`
panic; `is_traversable` propagates the panic whenever both bound checks
pass and that voxel sits at the inspected location, and `get_djikstra_map`
panics on the region where such a voxel neighbors the seed. -/
theorem C10_undefined_material_panics :
    (∀ v : Voxel, 4 ≤ v.id → v.get_type = none)
    ∧ (∀ (map : Volume Voxel) (location : Point3D) (v : Voxel),
        map.within_bounds location = true →
        map.within_bounds ⟨location.x, location.y, (location.z + U32MOD - 1) % U32MOD⟩ = true →
        map.get location = some v → 4 ≤ v.id → is_traversable map location = none)
    ∧ get_djikstra_map badColumn [(⟨0, 0, 1⟩, 0)] encodeNode 100 = Except.error "panic" := by
  refine ⟨fun v h => Voxel.get_type_undefined v h, ?_, rfl⟩
  intro map location v h1 h2 h3 h4
  simp only [is_traversable, h1, h2, Bool.and_self, if_true, h3,
    Voxel.get_type_undefined v h4]

/-- Witness for C10 at the concrete region: the voxel of id 7 at (1,0,1)
makes `get_type` fault and makes `is_traversable` fault there. -/
theorem C10_undefined_material_panics_witness :
    (⟨7, none⟩ : Voxel).get_type = none
    ∧ is_traversable badColumn ⟨1, 0, 1⟩ = none :=
  ⟨C10_undefined_material_panics.1 ⟨7, none⟩ (by decide),
   C10_undefined_material_panics.2.1 badColumn ⟨1, 0, 1⟩ ⟨7, none⟩ rfl rfl rfl (by decide)⟩

end RustChunks
